import Mathlib

/-!
Verification of the numeric template filters of `src/builtins/filters/number.rs`
(`pluralize`, `round`, `filesizeformat`).

Embedding conventions:
* The dynamic JSON-like value type (`serde_json::value::Value`) is embedded as
  the inductive `Value` below, with the numeric variant split into the integer
  and floating-point cases that `serde_json` distinguishes.
* `f64` arithmetic is idealised as exact rational arithmetic over `Rat`; the
  primitive rounding operations `f64::round`, `f64::ceil`, `f64::floor` become
  `ratRound`, `ratCeil`, `ratFloor`, and `f64::EPSILON = 2 ^ (-52)` becomes the
  rational constant `EPSILON`.
* A filter returns `Result<Value>` in Rust and may in principle panic at the
  `unwrap` call sites; we embed the outcome of a call as the three-way type
  `Outcome` (`ok`, `err`, or a diverging `unwrap` of `none`), so that the
  absence of panics is a provable statement rather than a typing accident.
-/

namespace TeraNumberFilters

/-- The dynamic value type of the template engine (`serde_json::value::Value`):
a tagged union of null, booleans, numbers (integer or 64-bit float), strings,
arrays and objects.  Only the numeric and string variants are consumed by the
filters verified here. -/
inductive Value where
  | null : Value
  | bool (b : Bool) : Value
  | intNum (n : Int) : Value
  | floatNum (q : Rat) : Value
  | str (s : String) : Value
  | arr (elems : List Value) : Value
  | obj (fields : List (String × Value)) : Value

/-- Modelled from the spec: the filter error type.  The spec (section 7)
distinguishes three error kinds: `TypeMismatch` (carrying filter name, argument
name, expected type and the actual value), `InvalidArgument` (filter name,
argument name, offending value) and `NegativeSize` (filter name and rejected
number).  The concrete `Error` type lives outside `src/`. -/
inductive FilterError where
  | typeMismatch (filter arg expected : String) (got : Value) : FilterError
  | invalidArgument (filter arg : String) (got : String) : FilterError
  | negativeSize (filter : String) (n : Int) : FilterError

/-- The observable outcome of one filter call: a successful value, a returned
error, or a diverging `unwrap` of a failed serialization (a Rust panic). -/
inductive Outcome where
  | ok (v : Value) : Outcome
  | err (e : FilterError) : Outcome
  | panicked : Outcome

/-- The named-argument map of a filter call (`HashMap<String, Value>`),
embedded as an association list with first-match lookup. -/
abbrev Args := List (String × Value)

/-- Lookup of a key in the argument map (`HashMap::get`). -/
def Args.get (args : Args) (k : String) : Option Value :=
  (args.find? (fun p => p.1 == k)).map (fun p => p.2)

/-- Sequencing of a fallible coercion into a filter body: an `Err` from
`try_get_value!` is returned immediately (the macro expands to `return Err`). -/
def bindE {α : Type} (x : Except FilterError α) (f : α → Outcome) : Outcome :=
  match x with
  | .error e => .err e
  | .ok a => f a

/-- Modelled from the spec: `try_get_value!(filter, arg, f64, v)`, the value
coercion helper (not under `src/`).  Numbers coerce to `f64` (integers are
accepted as floats, a lossless widening per spec section 4.2); every other
variant is a type mismatch naming the filter and the argument. -/
def tryGetF64 (filter arg : String) (v : Value) : Except FilterError Rat :=
  match v with
  | .intNum n => .ok (n : Rat)
  | .floatNum q => .ok q
  | _ => .error (.typeMismatch filter arg "f64" v)

/-- Modelled from the spec: `try_get_value!(filter, arg, String, v)`.  Only the
string variant is accepted; no numeric-to-string coercion is performed. -/
def tryGetString (filter arg : String) (v : Value) : Except FilterError String :=
  match v with
  | .str s => .ok s
  | _ => .error (.typeMismatch filter arg "String" v)

/-- Modelled from the spec: `try_get_value!(filter, arg, i32, v)`.  Only
integer values in the `i32` range are accepted; floats, strings and
out-of-range integers are type mismatches. -/
def tryGetI32 (filter arg : String) (v : Value) : Except FilterError Int :=
  match v with
  | .intNum n =>
    if -(2 ^ 31) ≤ n then
      if n < 2 ^ 31 then .ok n
      else .error (.typeMismatch filter arg "i32" v)
    else .error (.typeMismatch filter arg "i32" v)
  | _ => .error (.typeMismatch filter arg "i32" v)

/-- Modelled from the spec: `try_get_value!(filter, arg, usize, v)`, used by
`filesizeformat`.  Per spec sections 4.4 and 7, the coercion to an unsigned
machine integer rejects a negative input distinctly from a type mismatch, with
a dedicated negative-size error naming the filter and the rejected number;
non-integers and integers above the machine width are type mismatches. -/
def tryGetUsize (filter arg : String) (v : Value) : Except FilterError Nat :=
  match v with
  | .intNum n =>
    if n < 0 then .error (.negativeSize filter n)
    else if n < 2 ^ 64 then .ok n.toNat
    else .error (.typeMismatch filter arg "usize" v)
  | _ => .error (.typeMismatch filter arg "usize" v)

/-- Modelled from the spec: `serde_json::to_value` on a `String` always
succeeds, producing the string variant. -/
def toValueString (s : String) : Option Value := some (.str s)

/-- Modelled from the spec: `serde_json::to_value` on an `f64` always succeeds
(a non-finite float would serialize to null, but non-finite values do not arise
in the exact-rational idealisation). -/
def toValueF64 (q : Rat) : Option Value := some (.floatNum q)

/-- The per-argument block `match args.get(name)` with the string coercion on
a present key and the default on an absent one, shared by the optional string
arguments. -/
def getStringArg (filter arg dflt : String) (args : Args) : Except FilterError String :=
  match args.get arg with
  | some val => tryGetString filter arg val
  | none => .ok dflt

/-- The per-argument block `match args.get(name)` with the i32 coercion on a
present key and the default on an absent one, for the optional integer
argument. -/
def getI32Arg (filter arg : String) (dflt : Int) (args : Args) : Except FilterError Int :=
  match args.get arg with
  | some val => tryGetI32 filter arg val
  | none => .ok dflt

/-- Unwrapping (`Option::unwrap`) of the result of `to_value`: `none` would be
a panic. -/
def unwrapOutcome (o : Option Value) : Outcome :=
  match o with
  | some v => .ok v
  | none => .panicked

/-- The machine epsilon of `f64` (`f64::EPSILON`), as an exact rational. -/
def EPSILON : Rat := 1 / 2 ^ 52

/-- The primitive `f64::floor`, idealised over exact rationals. -/
def ratFloor (x : Rat) : Rat := ((⌊x⌋ : Int) : Rat)

/-- The primitive `f64::ceil`, idealised over exact rationals. -/
def ratCeil (x : Rat) : Rat := ((⌈x⌉ : Int) : Rat)

/-- The primitive `f64::round` (round to nearest, ties away from zero),
idealised over exact rationals. -/
def ratRound (x : Rat) : Rat :=
  if 0 ≤ x then ((⌊x + 1 / 2⌋ : Int) : Rat) else ((⌈x - 1 / 2⌉ : Int) : Rat)

/-- The power `10.0_f64.powi p`, idealised over exact rationals. -/
def ratPow10 (p : Int) : Rat :=
  if 0 ≤ p then ((10 : Rat) ^ p.toNat) else 1 / ((10 : Rat) ^ (-p).toNat)

/-- The `pluralize` filter (`src/builtins/filters/number.rs`):
coerce the value to a float, read the optional string arguments `plural`
(default `"s"`) and `singular` (default `""`), and return the plural suffix
when `(num.abs() - 1.).abs() > f64::EPSILON`, the singular suffix otherwise. -/
def pluralize (value : Value) (args : Args) : Outcome :=
  bindE (tryGetF64 "pluralize" "value" value) fun num =>
  bindE (getStringArg "pluralize" "plural" "s" args) fun plural =>
  bindE (getStringArg "pluralize" "singular" "" args) fun singular =>
  if |(|num| - 1)| > EPSILON then
    unwrapOutcome (toValueString plural)
  else
    unwrapOutcome (toValueString singular)

/-- The `round` filter (`src/builtins/filters/number.rs`): coerce the value to
a float, read `method` (string, default `"common"`) and `precision` (i32,
default `0`), scale by `multiplier = if precision == 0 { 1.0 } else
{ 10.0.powi(precision) }`, apply the selected primitive and divide back; an
unrecognized method is an error naming the method string. -/
def round (value : Value) (args : Args) : Outcome :=
  bindE (tryGetF64 "round" "value" value) fun num =>
  bindE (getStringArg "round" "method" "common" args) fun method =>
  bindE (getI32Arg "round" "precision" 0 args) fun precision =>
  let multiplier : Rat := if precision = 0 then 1 else ratPow10 precision
  if method = "common" then
    unwrapOutcome (toValueF64 (ratRound (multiplier * num) / multiplier))
  else if method = "ceil" then
    unwrapOutcome (toValueF64 (ratCeil (multiplier * num) / multiplier))
  else if method = "floor" then
    unwrapOutcome (toValueF64 (ratFloor (multiplier * num) / multiplier))
  else
    .err (.invalidArgument "round" "method" method)

/-- Largest unit index `k ≤ 8` with `base ^ k ≤ n` (0 when `n < base`): the
unit-selection loop of a human-readable size formatter. -/
def unitIndexAux (base n : Nat) : Nat :=
  if base ^ 8 ≤ n then 8
  else if base ^ 7 ≤ n then 7
  else if base ^ 6 ≤ n then 6
  else if base ^ 5 ≤ n then 5
  else if base ^ 4 ≤ n then 4
  else if base ^ 3 ≤ n then 3
  else if base ^ 2 ≤ n then 2
  else if base ^ 1 ≤ n then 1
  else 0

/-- Render a non-negative rational with exactly two decimal digits, rounding to
nearest at two decimals. -/
def fsTwoDecimals (q : Rat) : String :=
  let m : Int := ⌊q * 100 + 1 / 2⌋
  toString (m / 100) ++ "." ++ (if m % 100 < 10 then "0" else "") ++ toString (m % 100)

/-- Unit abbreviations of the conventional humansize format: powers of 1024
with decimal-style names. -/
def fsUnits : List String :=
  ["B", "KB", "MB", "GB", "TB", "PB", "EB", "ZB", "YB"]

/-- Modelled from the spec and the repository test `test_filesizeformat`:
`usize::file_size(file_size_opts::CONVENTIONAL)` of the external `humansize`
crate.  The conventional options divide by powers of 1024 while labelling with
decimal-style unit abbreviations (`KB`, `MB`, ...), print two decimals and a
space before the unit (the test pins `123456789 ↦ "117.74 MB"`,
and `123456789 / 1024 ^ 2 = 117.73756...`); byte counts below one kilobyte are
printed as plain integers.  On an unsigned integer this formatter always
succeeds. -/
def fileSize (n : Nat) : String :=
  let k := unitIndexAux 1024 n
  if k = 0 then toString n ++ " B"
  else fsTwoDecimals ((n : Rat) / ((1024 : Rat) ^ k)) ++ " " ++ ((fsUnits.get? k).getD "")

/-- A second formatter following the words of the spec rather than the source, for
the refinement comparison of the filesize claim: "decimal (power-of-1000) unit
conventions — bytes, then kB, MB, GB, … — selecting the largest unit such that
the magnitude is ≥ 1 in that unit", two decimals, space separator. -/
def fileSizeDecimalSpec (n : Nat) : String :=
  let k := unitIndexAux 1000 n
  if k = 0 then toString n ++ " B"
  else fsTwoDecimals ((n : Rat) / ((1000 : Rat) ^ k)) ++ " " ++
    ((["B", "kB", "MB", "GB", "TB", "PB", "EB", "ZB", "YB"].get? k).getD "")

/-- The `filesizeformat` filter (`src/builtins/filters/number.rs`): coerce the
value to `usize` (its argument map is ignored) and format it; the
negative-number branch of `map_err` in the source is unreachable because
`file_size` on an unsigned integer never fails. -/
def filesizeformat (value : Value) (_args : Args) : Outcome :=
  bindE (tryGetUsize "filesizeformat" "value" value) fun num =>
  unwrapOutcome (toValueString (fileSize num))

/-- The scaling multiplier computed by `round` for a given precision. -/
def multOf (p : Int) : Rat := if p = 0 then 1 else ratPow10 p

/-- Recognizer for a type-mismatch outcome, used to state that an error is
distinct from `TypeMismatch`. -/
def Outcome.isTypeMismatchErr : Outcome → Bool
  | .err (.typeMismatch _ _ _ _) => true
  | _ => false

/-- Recognizer for an invalid-argument outcome. -/
def Outcome.isInvalidArgumentErr : Outcome → Bool
  | .err (.invalidArgument _ _ _) => true
  | _ => false

@[simp] theorem bindE_ok {α : Type} (a : α) (f : α → Outcome) :
    bindE (.ok a) f = f a := rfl

@[simp] theorem bindE_error {α : Type} (e : FilterError) (f : α → Outcome) :
    bindE (.error e) f = .err e := rfl

@[simp] theorem tryGetF64_float (fl ar : String) (q : Rat) :
    tryGetF64 fl ar (.floatNum q) = .ok q := rfl

@[simp] theorem tryGetF64_int (fl ar : String) (n : Int) :
    tryGetF64 fl ar (.intNum n) = .ok (n : Rat) := rfl

@[simp] theorem tryGetString_str (fl ar : String) (s : String) :
    tryGetString fl ar (.str s) = .ok s := rfl

@[simp] theorem unwrapOutcome_toValueString (s : String) :
    unwrapOutcome (toValueString s) = .ok (.str s) := rfl

@[simp] theorem unwrapOutcome_toValueF64 (q : Rat) :
    unwrapOutcome (toValueF64 q) = .ok (.floatNum q) := rfl

@[simp] theorem Args.get_nil (k : String) : Args.get [] k = none := rfl

/-- Evaluation of `pluralize` on a float with no named arguments: the suffix
defaults apply and the epsilon test decides the suffix. -/
theorem pluralize_eval_default (q : Rat) :
    pluralize (.floatNum q) [] =
      if |(|q| - 1)| > EPSILON then .ok (.str "s") else .ok (.str "") := rfl

/-- Claim C1: for every float value `v` called through `pluralize` with an
empty argument map, the result is `"s"` when `|abs(v) - 1| > ε` (machine
epsilon for `f64`) and `""` when `|abs(v) - 1| ≤ ε`; in particular `1` and
`-1` yield `""` while `0`, `2` and `1.5` yield `"s"`. -/
theorem pluralize_suffix_rule (q : Rat) :
    (EPSILON < |(|q| - 1)| → pluralize (.floatNum q) [] = .ok (.str "s")) ∧
    (|(|q| - 1)| ≤ EPSILON → pluralize (.floatNum q) [] = .ok (.str "")) ∧
    pluralize (.floatNum 1) [] = .ok (.str "") ∧
    pluralize (.floatNum (-1)) [] = .ok (.str "") ∧
    pluralize (.floatNum 0) [] = .ok (.str "s") ∧
    pluralize (.floatNum 2) [] = .ok (.str "s") ∧
    pluralize (.floatNum (3 / 2)) [] = .ok (.str "s") := by
  refine ⟨fun h => ?_, fun h => ?_, ?_, ?_, ?_, ?_, ?_⟩
  · rw [pluralize_eval_default, if_pos h]
  · rw [pluralize_eval_default, if_neg (not_lt.mpr h)]
  all_goals with_unfolding_all rfl

/-- Witness for C1 at concrete inputs `2` and `1`. -/
theorem pluralize_suffix_rule_witness :
    pluralize (.floatNum 2) [] = .ok (.str "s") ∧
    pluralize (.floatNum 1) [] = .ok (.str "") :=
  ⟨(pluralize_suffix_rule 2).1 (by with_unfolding_all decide),
   (pluralize_suffix_rule 1).2.1 (by with_unfolding_all decide)⟩

theorem ratFloor_intCast (k : Int) : ratFloor (k : Rat) = (k : Rat) := by
  simp [ratFloor]

theorem ratCeil_intCast (k : Int) : ratCeil (k : Rat) = (k : Rat) := by
  simp [ratCeil]

theorem ratRound_intCast (k : Int) : ratRound (k : Rat) = (k : Rat) := by
  unfold ratRound
  split
  · rw [Int.floor_int_add]
    have h0 : ⌊(1 / 2 : Rat)⌋ = 0 := by
      rw [Int.floor_eq_zero_iff]
      constructor <;> norm_num
    rw [h0, add_zero]
  · rw [sub_eq_add_neg, add_comm, Int.ceil_add_int]
    have h0 : ⌈(-(1 / 2) : Rat)⌉ = 0 := by
      rw [Int.ceil_eq_zero_iff]
      constructor <;> norm_num
    rw [h0, zero_add]

theorem ratFloor_isInt (x : Rat) : ∃ k : Int, ratFloor x = (k : Rat) := ⟨⌊x⌋, rfl⟩

theorem ratCeil_isInt (x : Rat) : ∃ k : Int, ratCeil x = (k : Rat) := ⟨⌈x⌉, rfl⟩

theorem ratRound_isInt (x : Rat) : ∃ k : Int, ratRound x = (k : Rat) := by
  unfold ratRound
  split
  · exact ⟨_, rfl⟩
  · exact ⟨_, rfl⟩

/-- Re-rounding a scaled, already-rounded value changes nothing (nearest). -/
theorem ratRound_scaled (m x : Rat) (hm : m ≠ 0) :
    ratRound (m * (ratRound x / m)) = ratRound x := by
  obtain ⟨k, hk⟩ := ratRound_isInt x
  rw [hk]
  have h : m * ((k : Rat) / m) = (k : Rat) := by field_simp
  rw [h, ratRound_intCast]

/-- Re-rounding a scaled, already-rounded value changes nothing (ceil). -/
theorem ratCeil_scaled (m x : Rat) (hm : m ≠ 0) :
    ratCeil (m * (ratCeil x / m)) = ratCeil x := by
  obtain ⟨k, hk⟩ := ratCeil_isInt x
  rw [hk]
  have h : m * ((k : Rat) / m) = (k : Rat) := by field_simp
  rw [h, ratCeil_intCast]

/-- Re-rounding a scaled, already-rounded value changes nothing (floor). -/
theorem ratFloor_scaled (m x : Rat) (hm : m ≠ 0) :
    ratFloor (m * (ratFloor x / m)) = ratFloor x := by
  obtain ⟨k, hk⟩ := ratFloor_isInt x
  rw [hk]
  have h : m * ((k : Rat) / m) = (k : Rat) := by field_simp
  rw [h, ratFloor_intCast]

theorem ratPow10_ne_zero (p : Int) : ratPow10 p ≠ 0 := by
  unfold ratPow10
  split
  · exact pow_ne_zero _ (by norm_num)
  · exact one_div_ne_zero (pow_ne_zero _ (by norm_num))

theorem ratPow10_eq_zpow (p : Int) : ratPow10 p = (10 : Rat) ^ p := by
  unfold ratPow10
  split
  · next h => rw [← zpow_natCast, Int.toNat_of_nonneg h]
  · next h =>
    have h2 : (0 : Int) ≤ -p := by omega
    rw [one_div, ← zpow_natCast, Int.toNat_of_nonneg h2, ← zpow_neg, neg_neg]

theorem multOf_ne_zero (p : Int) : multOf p ≠ 0 := by
  unfold multOf
  split
  · norm_num
  · exact ratPow10_ne_zero p

theorem multOf_eq_zpow (p : Int) : multOf p = if p = 0 then (1 : Rat) else (10 : Rat) ^ p := by
  unfold multOf
  split <;> simp [ratPow10_eq_zpow]

theorem tryGetI32_int_in_range (fl ar : String) (p : Int)
    (h1 : -(2 ^ 31) ≤ p) (h2 : p < 2 ^ 31) :
    tryGetI32 fl ar (.intNum p) = .ok p := by
  have h1n : (-2147483648 : Int) ≤ p := by omega
  have h2n : p < 2147483648 := by omega
  simp [tryGetI32, h1n, h2n]

/-- Evaluation of `round` on a float with explicit `method` and in-range
`precision` arguments. -/
theorem round_eval (q : Rat) (m : String) (p : Int)
    (h1 : -(2 ^ 31) ≤ p) (h2 : p < 2 ^ 31) :
    round (.floatNum q) [("method", .str m), ("precision", .intNum p)] =
      if m = "common" then .ok (.floatNum (ratRound (multOf p * q) / multOf p))
      else if m = "ceil" then .ok (.floatNum (ratCeil (multOf p * q) / multOf p))
      else if m = "floor" then .ok (.floatNum (ratFloor (multOf p * q) / multOf p))
      else .err (.invalidArgument "round" "method" m) := by
  have hs : getStringArg "round" "method" "common"
      [("method", Value.str m), ("precision", Value.intNum p)] = .ok m := rfl
  have hp : getI32Arg "round" "precision" 0
      [("method", Value.str m), ("precision", Value.intNum p)]
      = tryGetI32 "round" "precision" (Value.intNum p) := rfl
  unfold round
  rw [hs, hp, tryGetI32_int_in_range "round" "precision" p h1 h2]
  rfl

/-- Evaluation of `round` with `method` absent (defaulting to `"common"`) and
an in-range `precision` present. -/
theorem round_eval_default_method (q : Rat) (p : Int)
    (h1 : -(2 ^ 31) ≤ p) (h2 : p < 2 ^ 31) :
    round (.floatNum q) [("precision", .intNum p)] =
      .ok (.floatNum (ratRound (multOf p * q) / multOf p)) := by
  have hp : getI32Arg "round" "precision" 0 [("precision", Value.intNum p)]
      = tryGetI32 "round" "precision" (Value.intNum p) := rfl
  unfold round
  rw [hp, tryGetI32_int_in_range "round" "precision" p h1 h2]
  rfl

/-- Claim C2: for every float `v`, every method in `common`, `ceil`, `floor`
and every (in-range) integer precision `p`, `round` returns `(v * m)` passed
through the selected rounding primitive and divided by `m`, where `m = 10 ^ p`
for `p ≠ 0` and `m = 1` for `p = 0`; `method` defaults to `"common"` and
`precision` defaults to `0` when absent from the argument map. -/
theorem round_scaled_rounding (q : Rat) (p : Int)
    (h1 : -(2 ^ 31) ≤ p) (h2 : p < 2 ^ 31) :
    round (.floatNum q) [("method", .str "common"), ("precision", .intNum p)] =
      .ok (.floatNum (ratRound ((if p = 0 then (1 : Rat) else (10 : Rat) ^ p) * q) /
        (if p = 0 then (1 : Rat) else (10 : Rat) ^ p))) ∧
    round (.floatNum q) [("method", .str "ceil"), ("precision", .intNum p)] =
      .ok (.floatNum (ratCeil ((if p = 0 then (1 : Rat) else (10 : Rat) ^ p) * q) /
        (if p = 0 then (1 : Rat) else (10 : Rat) ^ p))) ∧
    round (.floatNum q) [("method", .str "floor"), ("precision", .intNum p)] =
      .ok (.floatNum (ratFloor ((if p = 0 then (1 : Rat) else (10 : Rat) ^ p) * q) /
        (if p = 0 then (1 : Rat) else (10 : Rat) ^ p))) ∧
    round (.floatNum q) [("precision", .intNum p)] =
      .ok (.floatNum (ratRound ((if p = 0 then (1 : Rat) else (10 : Rat) ^ p) * q) /
        (if p = 0 then (1 : Rat) else (10 : Rat) ^ p))) ∧
    round (.floatNum q) [("method", .str "ceil")] = .ok (.floatNum (ratCeil q)) ∧
    round (.floatNum q) [] = .ok (.floatNum (ratRound q)) := by
  have hM : multOf p = if p = 0 then (1 : Rat) else (10 : Rat) ^ p := multOf_eq_zpow p
  refine ⟨?_, ?_, ?_, ?_, ?_, ?_⟩
  · rw [round_eval q "common" p h1 h2]
    simp [hM]
  · rw [round_eval q "ceil" p h1 h2]
    simp [hM]
  · rw [round_eval q "floor" p h1 h2]
    simp [hM]
  · rw [round_eval_default_method q p h1 h2, hM]
  · have e : round (.floatNum q) [("method", .str "ceil")] =
        .ok (.floatNum (ratCeil (1 * q) / 1)) := rfl
    rw [e, one_mul, div_one]
  · have e : round (.floatNum q) [] = .ok (.floatNum (ratRound (1 * q) / 1)) := rfl
    rw [e, one_mul, div_one]

/-- Witness for C2 at `v = 21/10`, `p = 1`, method `"common"`. -/
theorem round_scaled_rounding_witness :
    round (.floatNum (21 / 10)) [("method", .str "common"), ("precision", .intNum 1)] =
      .ok (.floatNum (ratRound ((if (1 : Int) = 0 then (1 : Rat) else (10 : Rat) ^ (1 : Int)) * (21 / 10)) /
        (if (1 : Int) = 0 then (1 : Rat) else (10 : Rat) ^ (1 : Int)))) :=
  (round_scaled_rounding (21 / 10) 1 (by norm_num) (by norm_num)).1

/-- Claim C3: rounding is idempotent — applying `round` to the result of
`round` with the same recognized method and the same in-range precision
returns that result unchanged. -/
theorem round_idempotent (q : Rat) (p : Int) (m : String)
    (hm : m = "common" ∨ m = "ceil" ∨ m = "floor")
    (h1 : -(2 ^ 31) ≤ p) (h2 : p < 2 ^ 31) (r : Value)
    (h : round (.floatNum q) [("method", .str m), ("precision", .intNum p)] = .ok r) :
    round r [("method", .str m), ("precision", .intNum p)] = .ok r := by
  have hM : multOf p ≠ 0 := multOf_ne_zero p
  rcases hm with hm | hm | hm <;> subst hm
  · rw [round_eval q "common" p h1 h2] at h
    simp at h
    subst h
    rw [round_eval _ "common" p h1 h2, ratRound_scaled _ _ hM]
    simp
  · rw [round_eval q "ceil" p h1 h2] at h
    simp at h
    subst h
    rw [round_eval _ "ceil" p h1 h2, ratCeil_scaled _ _ hM]
    simp
  · rw [round_eval q "floor" p h1 h2] at h
    simp at h
    subst h
    rw [round_eval _ "floor" p h1 h2, ratFloor_scaled _ _ hM]
    simp

/-- Witness for C3 at `v = 211/100`, `p = 1`, method `"ceil"`, whose first
rounding returns `11/5`. -/
theorem round_idempotent_witness :
    round (.floatNum (11 / 5)) [("method", .str "ceil"), ("precision", .intNum 1)] =
      .ok (.floatNum (11 / 5)) :=
  round_idempotent (211 / 100) 1 "ceil" (Or.inr (Or.inl rfl)) (by norm_num) (by norm_num)
    (.floatNum (11 / 5)) (by with_unfolding_all rfl)

/-- Claim C4 as stated is false at a non-numeric input: with a string value
and the unrecognized method `"bogus"`, `round` fails with a type mismatch on
the argument `value`, not with an invalid-argument error naming the method. -/
theorem round_unknown_method_counterexample :
    round (.str "x") [("method", .str "bogus")] =
      .err (.typeMismatch "round" "value" "f64" (.str "x")) ∧
    (round (.str "x") [("method", .str "bogus")]).isTypeMismatchErr = true ∧
    (round (.str "x") [("method", .str "bogus")]).isInvalidArgumentErr = false :=
  ⟨rfl, rfl, rfl⟩

/-- Claim C4 (amended): for every numeric input, calling `round` with a method
string that is none of `"common"`, `"ceil"`, `"floor"` fails with an
invalid-argument error naming the unsupported method string. -/
theorem round_unknown_method (v : Value) (m : String)
    (hv : (∃ n : Int, v = .intNum n) ∨ (∃ q : Rat, v = .floatNum q))
    (hc : m ≠ "common") (hce : m ≠ "ceil") (hf : m ≠ "floor") :
    round v [("method", .str m)] = .err (.invalidArgument "round" "method" m) := by
  have hs : getStringArg "round" "method" "common" [("method", Value.str m)] = .ok m := rfl
  have hp : getI32Arg "round" "precision" 0 [("method", Value.str m)] = .ok 0 := rfl
  rcases hv with ⟨n, rfl⟩ | ⟨q, rfl⟩ <;>
  · unfold round
    rw [hs, hp]
    simp [hc, hce, hf]

/-- Witness for the amended C4 at value `1` and method `"bogus"`. -/
theorem round_unknown_method_witness :
    round (.floatNum 1) [("method", .str "bogus")] =
      .err (.invalidArgument "round" "method" "bogus") :=
  round_unknown_method (.floatNum 1) "bogus" (Or.inr ⟨1, rfl⟩)
    (by decide) (by decide) (by decide)

/-- Claim C5: `filesizeformat` on a negative numeric value fails with the
dedicated negative-size error (distinct from a type mismatch) naming the
filter and the rejected number, for any argument map. -/
theorem filesizeformat_negative (n : Int) (a : Args) (h : n < 0) :
    filesizeformat (.intNum n) a = .err (.negativeSize "filesizeformat" n) ∧
    (filesizeformat (.intNum n) a).isTypeMismatchErr = false := by
  have hc : tryGetUsize "filesizeformat" "value" (.intNum n)
      = .error (.negativeSize "filesizeformat" n) := by
    simp [tryGetUsize, h]
  have he : filesizeformat (.intNum n) a = .err (.negativeSize "filesizeformat" n) := by
    unfold filesizeformat
    rw [hc]
    rfl
  exact ⟨he, by rw [he]; rfl⟩

/-- Witness for C5 at input `-1`. -/
theorem filesizeformat_negative_witness :
    filesizeformat (.intNum (-1)) [] = .err (.negativeSize "filesizeformat" (-1)) ∧
    (filesizeformat (.intNum (-1)) []).isTypeMismatchErr = false :=
  filesizeformat_negative (-1) [] (by norm_num)

/-- Claim C6: a string value where `pluralize`, `round` or `filesizeformat`
expects a number fails with a type mismatch naming the correct filter and the
argument `value`; the named arguments `plural`, `singular`, `method` and
`precision` likewise fail with a type mismatch naming the filter and the
argument when given a value of the wrong type. -/
theorem filters_type_mismatch (s : String) :
    pluralize (.str s) [] = .err (.typeMismatch "pluralize" "value" "f64" (.str s)) ∧
    round (.str s) [] = .err (.typeMismatch "round" "value" "f64" (.str s)) ∧
    filesizeformat (.str s) [] =
      .err (.typeMismatch "filesizeformat" "value" "usize" (.str s)) ∧
    pluralize (.floatNum 2) [("plural", .intNum 3)] =
      .err (.typeMismatch "pluralize" "plural" "String" (.intNum 3)) ∧
    pluralize (.floatNum 1) [("singular", .bool true)] =
      .err (.typeMismatch "pluralize" "singular" "String" (.bool true)) ∧
    round (.floatNum 1) [("method", .intNum 0)] =
      .err (.typeMismatch "round" "method" "String" (.intNum 0)) ∧
    round (.floatNum 1) [("precision", .str s)] =
      .err (.typeMismatch "round" "precision" "i32" (.str s)) :=
  ⟨rfl, rfl, rfl, rfl, rfl, rfl, rfl⟩

/-- Witness for C6 at the concrete string `"x"`. -/
theorem filters_type_mismatch_witness :
    pluralize (.str "x") [] = .err (.typeMismatch "pluralize" "value" "f64" (.str "x")) :=
  (filters_type_mismatch "x").1

/-- Claim C7: every successful `round` call returns a float value. -/
theorem round_ok_is_float (v : Value) (a : Args) (r : Value)
    (h : round v a = .ok r) : ∃ q : Rat, r = .floatNum q := by
  unfold round at h
  cases hval : tryGetF64 "round" "value" v with
  | error e => rw [hval] at h; simp [bindE] at h
  | ok num =>
    rw [hval] at h
    simp only [bindE_ok] at h
    cases hme : getStringArg "round" "method" "common" a with
    | error e => rw [hme] at h; simp [bindE] at h
    | ok method =>
      rw [hme] at h
      simp only [bindE_ok] at h
      cases hpr : getI32Arg "round" "precision" 0 a with
      | error e => rw [hpr] at h; simp [bindE] at h
      | ok precision =>
        rw [hpr] at h
        simp only [bindE_ok] at h
        split at h
        · simp only [unwrapOutcome_toValueF64, Outcome.ok.injEq] at h
          exact ⟨_, h.symm⟩
        · split at h
          · simp only [unwrapOutcome_toValueF64, Outcome.ok.injEq] at h
            exact ⟨_, h.symm⟩
          · split at h
            · simp only [unwrapOutcome_toValueF64, Outcome.ok.injEq] at h
              exact ⟨_, h.symm⟩
            · simp at h

/-- Witness for C7: at input `21/10` with no arguments the successful result
is the float `2`. -/
theorem round_ok_is_float_witness :
    ∃ q : Rat, Value.floatNum 2 = Value.floatNum q :=
  round_ok_is_float (.floatNum (21 / 10)) [] (.floatNum 2) (by with_unfolding_all rfl)

/-- Claim C8 as stated is false in its unit-convention clause: the code
(pinned by the repository test) returns `"117.74 MB"` for `123456789`, which
is division by `1024 ^ 2`, while the spec-worded power-of-1000 formatter
yields `"123.46 MB"` on the same input. -/
theorem filesizeformat_pow1000_counterexample :
    filesizeformat (.intNum 123456789) [] = .ok (.str "117.74 MB") ∧
    fileSizeDecimalSpec 123456789 = "123.46 MB" ∧
    fileSize 123456789 ≠ fileSizeDecimalSpec 123456789 :=
  ⟨by with_unfolding_all rfl, by with_unfolding_all decide, by with_unfolding_all decide⟩

/-- Claim C8 (amended): `filesizeformat` applied to the integer `123456789`
(with any argument map, which is ignored) succeeds and returns the string
`"117.74 MB"`, following power-of-1024 division with decimal-style unit
abbreviations, two-decimal precision and a space before the unit
abbreviation. -/
theorem filesizeformat_conventional :
    filesizeformat (.intNum 123456789) [] = .ok (.str "117.74 MB") ∧
    filesizeformat (.intNum 123456789) [("ignored", .str "arg")] = .ok (.str "117.74 MB") ∧
    fileSize 123456789 = fsTwoDecimals ((123456789 : Rat) / (1024 : Rat) ^ 2) ++ " MB" :=
  ⟨by with_unfolding_all rfl, by with_unfolding_all rfl, by with_unfolding_all rfl⟩

theorem getStringArg_congr (f a d : String) (x y : Args) (h : x.get a = y.get a) :
    getStringArg f a d x = getStringArg f a d y := by
  unfold getStringArg
  rw [h]

theorem getI32Arg_congr (f a : String) (d : Int) (x y : Args) (h : x.get a = y.get a) :
    getI32Arg f a d x = getI32Arg f a d y := by
  unfold getI32Arg
  rw [h]

/-- Claim C9: unrecognized argument-map keys never affect any filter — two
maps agreeing on `plural` and `singular` (only) give the same `pluralize`
result on the same primary value, two maps agreeing on `method` and
`precision` (only) give the same `round` result, and `filesizeformat` gives
the same result on two arbitrary maps. -/
theorem filters_ignore_extra_keys (v : Value) (x y : Args) :
    (x.get "plural" = y.get "plural" → x.get "singular" = y.get "singular" →
      pluralize v x = pluralize v y) ∧
    (x.get "method" = y.get "method" → x.get "precision" = y.get "precision" →
      round v x = round v y) ∧
    filesizeformat v x = filesizeformat v y := by
  refine ⟨fun hpl hsg => ?_, fun hme hpr => ?_, rfl⟩
  · unfold pluralize
    rw [getStringArg_congr "pluralize" "plural" "s" x y hpl,
        getStringArg_congr "pluralize" "singular" "" x y hsg]
  · unfold round
    rw [getStringArg_congr "round" "method" "common" x y hme,
        getI32Arg_congr "round" "precision" 0 x y hpr]

/-- Witness for C9: `pluralize` on maps differing in `method`, `round` on maps
differing in `plural`, and `filesizeformat` on two maps differing in both. -/
theorem filters_ignore_extra_keys_witness :
    pluralize (.floatNum 2) [("plural", .str "es"), ("method", .str "floor")] =
      pluralize (.floatNum 2) [("plural", .str "es"), ("junk", .null)] ∧
    round (.floatNum 2) [("method", .str "floor"), ("plural", .str "es")] =
      round (.floatNum 2) [("method", .str "floor")] ∧
    filesizeformat (.intNum 5) [("method", .str "floor")] =
      filesizeformat (.intNum 5) [("plural", .str "es")] :=
  ⟨(filters_ignore_extra_keys (.floatNum 2) _ _).1 rfl rfl,
   (filters_ignore_extra_keys (.floatNum 2) _ _).2.1 rfl rfl,
   (filters_ignore_extra_keys (.intNum 5) _ _).2.2⟩

theorem bindE_ne_panicked {α : Type} (x : Except FilterError α) (f : α → Outcome)
    (hf : ∀ b : α, f b ≠ .panicked) : bindE x f ≠ .panicked := by
  cases x with
  | error e => simp [bindE]
  | ok b => simpa [bindE] using hf b

/-- Claim C10: no filter ever panics — for every dynamic value and argument
map the call returns `ok` or `err`; in particular the `unwrap` of `to_value`
on a string or a float never diverges. -/
theorem filters_never_panic (v : Value) (a : Args) :
    pluralize v a ≠ .panicked ∧ round v a ≠ .panicked ∧
    filesizeformat v a ≠ .panicked := by
  refine ⟨?_, ?_, ?_⟩
  · unfold pluralize
    apply bindE_ne_panicked
    intro num
    apply bindE_ne_panicked
    intro plural
    apply bindE_ne_panicked
    intro singular
    split <;> simp [unwrapOutcome, toValueString]
  · unfold round
    apply bindE_ne_panicked
    intro num
    apply bindE_ne_panicked
    intro method
    apply bindE_ne_panicked
    intro precision
    repeat' split
    all_goals simp [unwrapOutcome, toValueF64]
  · unfold filesizeformat
    apply bindE_ne_panicked
    intro num
    simp [unwrapOutcome, toValueString]

/-- Witness for C10 at value `1` and the empty argument map. -/
theorem filters_never_panic_witness :
    pluralize (.floatNum 1) [] ≠ .panicked ∧ round (.floatNum 1) [] ≠ .panicked ∧
    filesizeformat (.floatNum 1) [] ≠ .panicked :=
  filters_never_panic (.floatNum 1) []

end TeraNumberFilters
